import Mathlib

/-!
Verification of the serverless-auth-app request handler
(`src/backend/src/index.ts`) against its natural-language specification.

The handler is

  export const handler = async (event, context) => {
      console.log("Event:", JSON.stringify(event, null, 2));
      const body = event.body ? JSON.parse(event.body) : \x7b\x7d;
      return {
          statusCode: 200,
          headers: { "Content-Type": "application/json",
                     "Access-Control-Allow-Origin": "*" },
          body: JSON.stringify({ message: "Hello, World!",
                                 timestamp: new Date().toISOString(),
                                 requestId: context.awsRequestId,
                                 body: body })
      };
  };

The embedding models:
  * JSON values (`Json`), the strict RFC 8259 parser semantics of
    `JSON.parse` (`jsonParse`, written with a fuel counter so totality is
    structural), and the serializer semantics of `JSON.stringify`
    (`jsonStringify`).  Numeric literals are kept as their raw decimal
    token (IEEE-754 value semantics of JS numbers is out of scope; every
    number appearing in the spec's scenarios is a small integer, for which
    the token is the value).  Lone-surrogate `\uXXXX` escapes are mapped
    through `Char.ofNat`'s total completion; no claim exercises them.
  * the ECMAScript `Date.prototype.toISOString` rendering of a
    non-negative epoch-millisecond clock reading (`jsToISOString`), using
    the standard civil-from-days calendar algorithm.
  * the Lambda event/context/result records restricted to the fields the
    TypeScript types expose and the handler can see.

Effects are made explicit: the single clock read `new Date()` becomes a
`now : Nat` argument (epoch milliseconds), and the uncaught exception that
`JSON.parse` throws on malformed input becomes the `none` case of an
`Option` result.  The `console.log` line is a diagnostic side effect with
no influence on the returned value and is not part of the value model.
-/

/-- A JSON value.  `num` keeps the raw decimal token of the literal. -/
inductive Json where
  | null : Json
  | bool : Bool → Json
  | num : String → Json
  | str : String → Json
  | arr : List Json → Json
  | obj : List (String × Json) → Json
deriving Repr

/-- JSON insignificant whitespace (RFC 8259: space, tab, line feed, carriage return). -/
def isJsonWs (c : Char) : Bool :=
  c = ' ' || c = '\t' || c = '\n' || c = '\r'

/-- Drop leading JSON whitespace. -/
def skipWs (cs : List Char) : List Char :=
  cs.dropWhile isJsonWs

/-- Value of a hexadecimal digit, if the character is one. -/
def hexVal (c : Char) : Option Nat :=
  let n := c.toNat
  if 48 ≤ n && n ≤ 57 then some (n - 48)
  else if 97 ≤ n && n ≤ 102 then some (n - 87)
  else if 65 ≤ n && n ≤ 70 then some (n - 55)
  else none

/-- Scan the body of a JSON string literal (after the opening quote),
returning the decoded characters and the input after the closing quote.
`JSON.parse` rejects unescaped control characters below U+0020. -/
def scanStringBody (cs : List Char) : Option (List Char × List Char) :=
  match cs with
  | [] => none
  | '"' :: rest => some ([], rest)
  | '\\' :: rest =>
    match rest with
    | [] => none
    | 'u' :: h1 :: h2 :: h3 :: h4 :: rest2 =>
      match hexVal h1, hexVal h2, hexVal h3, hexVal h4 with
      | some a, some b, some c, some d =>
        match scanStringBody rest2 with
        | some (tail, rem) => some (Char.ofNat (((a * 16 + b) * 16 + c) * 16 + d) :: tail, rem)
        | none => none
      | _, _, _, _ => none
    | e :: rest2 =>
      match (match e with
             | '"' => some '"'
             | '\\' => some '\\'
             | '/' => some '/'
             | 'b' => some (Char.ofNat 8)
             | 'f' => some (Char.ofNat 12)
             | 'n' => some '\n'
             | 'r' => some '\r'
             | 't' => some '\t'
             | _ => none) with
      | some ch =>
        match scanStringBody rest2 with
        | some (tail, rem) => some (ch :: tail, rem)
        | none => none
      | none => none
  | c :: rest =>
    if c.toNat < 32 then none
    else
      match scanStringBody rest with
      | some (tail, rem) => some (c :: tail, rem)
      | none => none

/-- Scan the digits of the integer part of a JSON number: `0`, or a nonzero
digit followed by any digits (strict grammar: no leading zeros). -/
def scanInt (cs : List Char) : Option (List Char × List Char) :=
  match cs with
  | '0' :: rest => some (['0'], rest)
  | c :: rest =>
    if c.isDigit then
      some (c :: rest.takeWhile Char.isDigit, rest.dropWhile Char.isDigit)
    else none
  | [] => none

/-- Scan an optional fraction part `.digits` (at least one digit required). -/
def scanFrac (cs : List Char) : Option (List Char × List Char) :=
  match cs with
  | '.' :: rest =>
    let ds := rest.takeWhile Char.isDigit
    if ds.isEmpty then none
    else some ('.' :: ds, rest.dropWhile Char.isDigit)
  | _ => some ([], cs)

/-- Scan an optional exponent part `[eE][+-]?digits`. -/
def scanExp (cs : List Char) : Option (List Char × List Char) :=
  match cs with
  | c :: rest =>
    if c = 'e' || c = 'E' then
      let (sgn, rest2) :=
        match rest with
        | s :: r => if s = '+' || s = '-' then ([s], r) else (([] : List Char), rest)
        | [] => ([], rest)
      let ds := rest2.takeWhile Char.isDigit
      if ds.isEmpty then none
      else some (c :: (sgn ++ ds), rest2.dropWhile Char.isDigit)
    else some ([], cs)
  | [] => some ([], cs)

/-- Scan a JSON number token per the RFC 8259 grammar, returning the raw
token characters and the remaining input. -/
def scanNumberToken (cs : List Char) : Option (List Char × List Char) :=
  let (sgn, cs1) :=
    match cs with
    | '-' :: r => ((['-'] : List Char), r)
    | _ => ([], cs)
  match scanInt cs1 with
  | none => none
  | some (ip, cs2) =>
    match scanFrac cs2 with
    | none => none
    | some (fp, cs3) =>
      match scanExp cs3 with
      | none => none
      | some (ep, cs4) => some (sgn ++ ip ++ fp ++ ep, cs4)

mutual

/-- Parse one JSON value from the input (after skipping leading whitespace),
with a structural fuel counter for totality. -/
def parseValue : Nat → List Char → Option (Json × List Char)
  | 0, _ => none
  | fuel + 1, cs =>
    match skipWs cs with
    | 'n' :: 'u' :: 'l' :: 'l' :: rest => some (Json.null, rest)
    | 't' :: 'r' :: 'u' :: 'e' :: rest => some (Json.bool true, rest)
    | 'f' :: 'a' :: 'l' :: 's' :: 'e' :: rest => some (Json.bool false, rest)
    | '"' :: rest =>
      match scanStringBody rest with
      | some (chars, rem) => some (Json.str (String.mk chars), rem)
      | none => none
    | '[' :: rest =>
      match skipWs rest with
      | ']' :: rest2 => some (Json.arr [], rest2)
      | _ =>
        match parseElems fuel rest with
        | some (vs, rem) => some (Json.arr vs, rem)
        | none => none
    | '\x7b' :: rest =>
      match skipWs rest with
      | '\x7d' :: rest2 => some (Json.obj [], rest2)
      | _ =>
        match parseMembers fuel rest with
        | some (ms, rem) => some (Json.obj ms, rem)
        | none => none
    | cs1 =>
      match scanNumberToken cs1 with
      | some (tok, rem) => some (Json.num (String.mk tok), rem)
      | none => none

/-- Parse a nonempty comma-separated list of array elements and the closing
bracket. -/
def parseElems : Nat → List Char → Option (List Json × List Char)
  | 0, _ => none
  | fuel + 1, cs =>
    match parseValue fuel cs with
    | none => none
    | some (v, rest) =>
      match skipWs rest with
      | ',' :: rest2 =>
        match parseElems fuel rest2 with
        | some (vs, rem) => some (v :: vs, rem)
        | none => none
      | ']' :: rest2 => some ([v], rest2)
      | _ => none

/-- Parse a nonempty comma-separated list of object members and the closing
brace. -/
def parseMembers : Nat → List Char → Option (List (String × Json) × List Char)
  | 0, _ => none
  | fuel + 1, cs =>
    match skipWs cs with
    | '"' :: rest =>
      match scanStringBody rest with
      | none => none
      | some (key, rest1) =>
        match skipWs rest1 with
        | ':' :: rest2 =>
          match parseValue fuel rest2 with
          | none => none
          | some (v, rest3) =>
            match skipWs rest3 with
            | ',' :: rest4 =>
              match parseMembers fuel rest4 with
              | some (ms, rem) => some ((String.mk key, v) :: ms, rem)
              | none => none
            | '\x7d' :: rest4 => some ([(String.mk key, v)], rest4)
            | _ => none
        | _ => none
    | _ => none

end

/-- The semantics of `JSON.parse`: `some v` when the whole text is one valid
JSON value (possibly surrounded by whitespace), `none` when `JSON.parse`
throws a `SyntaxError`.  The fuel `2 * length + 2` dominates the recursion
depth, which consumes at least one character every two fuel steps. -/
def jsonParse (s : String) : Option Json :=
  match parseValue (2 * s.length + 2) s.data with
  | some (v, rest) => if skipWs rest = [] then some v else none
  | none => none

/-- Escape one character the way `JSON.stringify` quotes string values:
quote and backslash get a backslash, the named control escapes are used
where they exist, other control characters become `\u00XX`. -/
def escapeChar (c : Char) : List Char :=
  if c = '"' then ['\\', '"']
  else if c = '\\' then ['\\', '\\']
  else if c = Char.ofNat 8 then ['\\', 'b']
  else if c = Char.ofNat 12 then ['\\', 'f']
  else if c = '\n' then ['\\', 'n']
  else if c = '\r' then ['\\', 'r']
  else if c = '\t' then ['\\', 't']
  else if c.toNat < 32 then
    ['\\', 'u', '0', '0', Nat.digitChar (c.toNat / 16), Nat.digitChar (c.toNat % 16)]
  else [c]

/-- Escape a whole string for embedding between quotes. -/
def escapeString (s : String) : String :=
  String.mk (s.data.map escapeChar).flatten

mutual

/-- The semantics of `JSON.stringify` on a materialized JSON value (no
`undefined`, functions, or `toJSON` hooks are representable here, so the
result is always a string). -/
def jsonStringify : Json → String
  | Json.null => "null"
  | Json.bool true => "true"
  | Json.bool false => "false"
  | Json.num raw => raw
  | Json.str s => "\"" ++ escapeString s ++ "\""
  | Json.arr xs => "[" ++ stringifyElems xs ++ "]"
  | Json.obj ms => "\x7b" ++ stringifyMembers ms ++ "\x7d"

/-- Comma-separated rendering of array elements. -/
def stringifyElems : List Json → String
  | [] => ""
  | [x] => jsonStringify x
  | x :: xs => jsonStringify x ++ "," ++ stringifyElems xs

/-- Comma-separated rendering of object members. -/
def stringifyMembers : List (String × Json) → String
  | [] => ""
  | [(k, v)] => "\"" ++ escapeString k ++ "\":" ++ jsonStringify v
  | (k, v) :: ms => "\"" ++ escapeString k ++ "\":" ++ jsonStringify v ++ "," ++ stringifyMembers ms

end

/-- Field access on a JSON object, first match (keys the handler builds are
distinct, so first-match agrees with JS object field lookup). -/
def Json.getField : Json → String → Option Json
  | Json.obj ms, k => (ms.find? (fun m => m.1 = k)).map (·.2)
  | _, _ => none

/-- Whether a JSON value is an object. -/
def Json.isObj : Json → Bool
  | Json.obj _ => true
  | _ => false

/-- Convert an epoch-day count to a proleptic-Gregorian civil date
(year, month, day), the standard era/century algorithm used by date
libraries and runtimes for non-negative epoch days. -/
def civilFromDays (days : Nat) : Nat × Nat × Nat :=
  let z := days + 719468
  let era := z / 146097
  let doe := z % 146097
  let yoe := (doe - doe / 1460 + doe / 36524 - doe / 146096) / 365
  let doy := doe - (365 * yoe + yoe / 4 - yoe / 100)
  let mp := (5 * doy + 2) / 153
  let d := doy - (153 * mp + 2) / 5 + 1
  let m := if mp < 10 then mp + 3 else mp - 9
  let y := yoe + era * 400
  (if m ≤ 2 then y + 1 else y, m, d)

/-- Two-digit zero-padded decimal rendering (for values below 100 this is
exactly `String(n).padStart(2, "0")`). -/
def pad2 (n : Nat) : List Char :=
  [Nat.digitChar (n / 10 % 10), Nat.digitChar (n % 10)]

/-- Three-digit zero-padded decimal rendering. -/
def pad3 (n : Nat) : List Char :=
  [Nat.digitChar (n / 100 % 10), Nat.digitChar (n / 10 % 10), Nat.digitChar (n % 10)]

/-- Four-digit zero-padded decimal rendering. -/
def pad4 (n : Nat) : List Char :=
  [Nat.digitChar (n / 1000 % 10), Nat.digitChar (n / 100 % 10),
   Nat.digitChar (n / 10 % 10), Nat.digitChar (n % 10)]

/-- The ECMAScript `Date.prototype.toISOString` rendering
`YYYY-MM-DDTHH:mm:ss.sssZ` of a clock reading `t` in milliseconds since
the Unix epoch (the format used for all years 0–9999). -/
def jsToISOString (t : Nat) : String :=
  let ms := t % 1000
  let sec := t / 1000 % 60
  let mins := t / 60000 % 60
  let hour := t / 3600000 % 24
  let ymd := civilFromDays (t / 86400000)
  String.mk
    (pad4 ymd.1 ++ ['-'] ++ pad2 ymd.2.1 ++ ['-'] ++ pad2 ymd.2.2 ++ ['T'] ++
     pad2 hour ++ [':'] ++ pad2 mins ++ [':'] ++ pad2 sec ++ ['.'] ++ pad3 ms ++ ['Z'])

/-- Decimal value of a digit character. -/
def digitVal (c : Char) : Nat := c.toNat - '0'.toNat

/-- Syntactic validity of an ISO-8601 combined date-time in UTC in the
exact extended layout `YYYY-MM-DDTHH:mm:ss.sssZ` that `toISOString`
promises: correct punctuation, digits in every numeric position, and the
calendar fields inside their ISO ranges. -/
def isValidISO8601 (s : String) : Bool :=
  match s.data with
  | [y1, y2, y3, y4, c1, m1, m2, c2, d1, d2, c3, h1, h2, c4, n1, n2, c5, s1, s2, c6, f1, f2, f3, c7] =>
    c1 = '-' && c2 = '-' && c3 = 'T' && c4 = ':' && c5 = ':' && c6 = '.' && c7 = 'Z' &&
    ([y1, y2, y3, y4, m1, m2, d1, d2, h1, h2, n1, n2, s1, s2, f1, f2, f3].all Char.isDigit) &&
    (let mo := digitVal m1 * 10 + digitVal m2
     let da := digitVal d1 * 10 + digitVal d2
     let ho := digitVal h1 * 10 + digitVal h2
     let mi := digitVal n1 * 10 + digitVal n2
     let se := digitVal s1 * 10 + digitVal s2
     1 ≤ mo && mo ≤ 12 && 1 ≤ da && da ≤ 31 && ho ≤ 23 && mi ≤ 59 && se ≤ 59)
  | _ => false

/-- The fields of `APIGatewayProxyEvent` the handler's type exposes (the
handler itself reads only `body`; the other request attributes are carried
to state noninterference). -/
structure APIGatewayProxyEvent where
  httpMethod : String
  path : String
  headers : List (String × String)
  queryStringParameters : Option (List (String × String))
  body : Option String

/-- The Lambda invocation context; the handler reads only `awsRequestId`. -/
structure Context where
  awsRequestId : String
  functionName : String

/-- The `APIGatewayProxyResult` record the handler returns. -/
structure APIGatewayProxyResult where
  statusCode : Nat
  headers : List (String × String)
  body : String
deriving Repr

/-- JavaScript truthiness of the optional `body` string: `null`/`undefined`
and the empty string are falsy. -/
def bodyTruthy : Option String → Bool
  | none => false
  | some s => !s.isEmpty

/-- The `const body = event.body ? JSON.parse(event.body) : \x7b\x7d` step:
`none` models the uncaught `SyntaxError` from `JSON.parse`. -/
def parseEventBody (b : Option String) : Option Json :=
  if bodyTruthy b then jsonParse (b.getD "") else some (Json.obj [])

/-- The object literal the handler passes to `JSON.stringify` for the
response body. -/
def responseJson (now : Nat) (requestId : String) (body : Json) : Json :=
  Json.obj
    [("message", Json.str "Hello, World!"),
     ("timestamp", Json.str (jsToISOString now)),
     ("requestId", Json.str requestId),
     ("body", body)]

/-- The Lambda handler of `src/backend/src/index.ts`.  The clock reading of
`new Date()` is the explicit argument `now` (epoch milliseconds); `none`
models the invocation faulting with an uncaught exception instead of
returning a response. -/
def handler (event : APIGatewayProxyEvent) (context : Context) (now : Nat) :
    Option APIGatewayProxyResult :=
  match parseEventBody event.body with
  | none => none
  | some body =>
    some
      { statusCode := 200,
        headers := [("Content-Type", "application/json"),
                    ("Access-Control-Allow-Origin", "*")],
        body := jsonStringify (responseJson now context.awsRequestId body) }

set_option maxHeartbeats 2000000 in
/-- Within one 400-year era the algorithm's day-of-year correction never
exceeds a year: the candidate `doy` is at most 365.  Proved by splitting on
the four-year block `doe / 1460` and closing each block linearly. -/
theorem doy_le (doe : Nat) (h : doe < 146097) :
    doe - (365 * ((doe - doe / 1460 + doe / 36524 - doe / 146096) / 365)
      + ((doe - doe / 1460 + doe / 36524 - doe / 146096) / 365) / 4
      - ((doe - doe / 1460 + doe / 36524 - doe / 146096) / 365) / 100) ≤ 365 := by
  have hq : doe / 1460 ≤ 100 := by omega
  set q := doe / 1460 with hqdef
  interval_cases q <;> omega

/-- The civil date produced by `civilFromDays` has its month in 1..12 and
its day in 1..31 for every epoch-day count. -/
theorem civilFromDays_month_day (days : Nat) :
    1 ≤ (civilFromDays days).2.1 ∧ (civilFromDays days).2.1 ≤ 12 ∧
    1 ≤ (civilFromDays days).2.2 ∧ (civilFromDays days).2.2 ≤ 31 := by
  have hdoe : (days + 719468) % 146097 < 146097 := Nat.mod_lt _ (by norm_num)
  have hdoy := doy_le ((days + 719468) % 146097) hdoe
  simp only [civilFromDays]
  split_ifs <;> simp_all <;> omega

/-- Up to the last epoch day of year 9999 the produced year stays below
10000, so the four-digit `toISOString` layout modelled here is exact. -/
theorem civilFromDays_year (days : Nat) (h : days ≤ 2932896) :
    (civilFromDays days).1 ≤ 9999 := by
  simp only [civilFromDays]
  split_ifs <;> omega

/-- Decimal digits render as digit characters. -/
theorem digitChar_isDigit : ∀ x < 10, (Nat.digitChar x).isDigit = true := by decide

/-- Reading a rendered decimal digit back gives the digit. -/
theorem digitVal_digitChar : ∀ x < 10, digitVal (Nat.digitChar x) = x := by decide

/-- Unconditional form of `digitChar_isDigit` for `x % 10` positions. -/
theorem digitChar_mod_isDigit (x : Nat) : (Nat.digitChar (x % 10)).isDigit = true :=
  digitChar_isDigit _ (Nat.mod_lt _ (by norm_num))

/-- Unconditional form of `digitVal_digitChar` for `x % 10` positions. -/
theorem digitVal_digitChar_mod (x : Nat) : digitVal (Nat.digitChar (x % 10)) = x % 10 :=
  digitVal_digitChar _ (Nat.mod_lt _ (by norm_num))

/-- The fixed `YYYY-MM-DDTHH:mm:ss.sssZ` rendering passes the ISO-8601
checker whenever the calendar fields are within their ranges. -/
theorem isValidISO8601_render (y mo da ho mi se ms : Nat)
    (h1 : 1 ≤ mo) (h2 : mo ≤ 12) (h3 : 1 ≤ da) (h4 : da ≤ 31)
    (h5 : ho ≤ 23) (h6 : mi ≤ 59) (h7 : se ≤ 59) :
    isValidISO8601 (String.mk
      (pad4 y ++ ['-'] ++ pad2 mo ++ ['-'] ++ pad2 da ++ ['T'] ++ pad2 ho ++ [':'] ++
       pad2 mi ++ [':'] ++ pad2 se ++ ['.'] ++ pad3 ms ++ ['Z'])) = true := by
  simp only [pad4, pad2, pad3, List.cons_append, List.nil_append]
  simp only [isValidISO8601]
  simp only [List.all_cons, List.all_nil, digitChar_mod_isDigit, digitVal_digitChar_mod,
    Bool.and_eq_true, decide_eq_true_eq, true_and, and_true]
  omega

/-- Every clock reading renders to a string the ISO-8601 checker accepts. -/
theorem jsToISOString_valid (t : Nat) : isValidISO8601 (jsToISOString t) = true := by
  obtain ⟨m1, m2, d1, d2⟩ := civilFromDays_month_day (t / 86400000)
  simp only [jsToISOString]
  exact isValidISO8601_render _ _ _ _ _ _ _ m1 m2 d1 d2 (by omega) (by omega) (by omega)

/-! ### Concrete fixtures used by witnesses and counterexamples -/

/-- A baseline GET event with no body. -/
def evNoBody : APIGatewayProxyEvent :=
  { httpMethod := "GET", path := "/", headers := [], queryStringParameters := none,
    body := none }

/-- An event whose body field is present but is the empty string. -/
def evEmptyBody : APIGatewayProxyEvent := { evNoBody with body := some "" }

/-- The spec's malformed-body scenario input. -/
def evNotJson : APIGatewayProxyEvent := { evNoBody with body := some "not-json" }

/-- An event carrying a JSON array body. -/
def evArrBody : APIGatewayProxyEvent := { evNoBody with body := some "[1,2]" }

/-- An event carrying the JSON body `null`. -/
def evNullBody : APIGatewayProxyEvent := { evNoBody with body := some "null" }

/-- The spec's happy-path scenario input `\x7b"x":1\x7d`. -/
def evX1 : APIGatewayProxyEvent := { evNoBody with body := some "\x7b\"x\":1\x7d" }

/-- An event differing from `evArrBody` in every field the handler ignores. -/
def evArrBodyAlt : APIGatewayProxyEvent :=
  { httpMethod := "POST", path := "/other", headers := [("X-Debug", "1")],
    queryStringParameters := some [("q", "1")], body := some "[1,2]" }

/-- A fixed invocation context. -/
def ctxFix : Context := { awsRequestId := "req-1", functionName := "backend" }

/-- A context sharing `ctxFix`'s request id but nothing else. -/
def ctxFixAlt : Context := { awsRequestId := "req-1", functionName := "other" }

/-- The spec's scenario context. -/
def ctxAbc : Context := { awsRequestId := "abc-123", functionName := "backend" }

/-! ### Supporting lemmas about the handler's shape -/

/-- The empty string is not valid JSON text. -/
theorem jsonParse_empty_eq_none : jsonParse "" = none := rfl

/-- When the body step produces a value, the handler returns exactly the
200 response carrying the serialized response object. -/
theorem handler_some_shape (e : APIGatewayProxyEvent) (c : Context) (now : Nat) (v : Json)
    (hpb : parseEventBody e.body = some v) :
    handler e c now = some
      { statusCode := 200,
        headers := [("Content-Type", "application/json"),
                    ("Access-Control-Allow-Origin", "*")],
        body := jsonStringify (responseJson now c.awsRequestId v) } := by
  unfold handler
  rw [hpb]

/-- Conversely, every returned response arises that way from a parsed body. -/
theorem handler_some_inv (e : APIGatewayProxyEvent) (c : Context) (now : Nat)
    (r : APIGatewayProxyResult) (h : handler e c now = some r) :
    ∃ v, parseEventBody e.body = some v ∧ r =
      { statusCode := 200,
        headers := [("Content-Type", "application/json"),
                    ("Access-Control-Allow-Origin", "*")],
        body := jsonStringify (responseJson now c.awsRequestId v) } := by
  unfold handler at h
  cases hpb : parseEventBody e.body with
  | none => rw [hpb] at h; cases h
  | some v => rw [hpb] at h; exact ⟨v, rfl, (Option.some.inj h).symm⟩

/-- A successfully parsing body string passes JS truthiness (it cannot be
empty, since the empty string is not valid JSON), so the parse step yields
its value. -/
theorem parseEventBody_some_of_parse (B : String) (v : Json) (hv : jsonParse B = some v) :
    parseEventBody (some B) = some v := by
  unfold parseEventBody bodyTruthy
  by_cases hB : B = ""
  · subst hB
    rw [jsonParse_empty_eq_none] at hv
    cases hv
  · have : B.isEmpty = false := by
      rcases Bool.eq_false_or_eq_true B.isEmpty with h | h
      · exact absurd ((String.isEmpty_iff B).mp h) hB
      · exact h
    simp [this, hv]

/-- Reading the `body` field of the response object gives the parsed body. -/
theorem responseJson_getField_body (now : Nat) (rid : String) (v : Json) :
    (responseJson now rid v).getField "body" = some v := rfl

/-- Reading the `requestId` field gives the context's request id. -/
theorem responseJson_getField_requestId (now : Nat) (rid : String) (v : Json) :
    (responseJson now rid v).getField "requestId" = some (Json.str rid) := rfl

/-- Reading the `message` field gives the fixed greeting. -/
theorem responseJson_getField_message (now : Nat) (rid : String) (v : Json) :
    (responseJson now rid v).getField "message" = some (Json.str "Hello, World!") := rfl

/-- Reading the `timestamp` field gives the rendered clock reading. -/
theorem responseJson_getField_timestamp (now : Nat) (rid : String) (v : Json) :
    (responseJson now rid v).getField "timestamp" =
      some (Json.str (jsToISOString now)) := rfl

/-! ### The claims -/

/-- C1: for every event whose body field is present and is syntactically
valid JSON text `B`, invoking the handler returns a response with status
code 200 whose JSON-encoded body has a `body` field that deep-equals the
value parsed from `B`. -/
theorem handler_valid_json_body_echo (e : APIGatewayProxyEvent) (c : Context) (now : Nat)
    (B : String) (v : Json) (hB : e.body = some B) (hv : jsonParse B = some v) :
    ∃ r, handler e c now = some r ∧ r.statusCode = 200 ∧
      ∃ j, r.body = jsonStringify j ∧ j.getField "body" = some v := by
  have hpb : parseEventBody e.body = some v := by
    rw [hB]; exact parseEventBody_some_of_parse B v hv
  exact ⟨_, handler_some_shape e c now v hpb, rfl,
    responseJson now c.awsRequestId v, rfl, responseJson_getField_body now c.awsRequestId v⟩

/-- Witness for C1 at the body `[1,2]`. -/
theorem handler_valid_json_body_echo_witness :
    ∃ r, handler evArrBody ctxFix 5 = some r ∧ r.statusCode = 200 ∧
      ∃ j, r.body = jsonStringify j ∧
        j.getField "body" = some (Json.arr [Json.num "1", Json.num "2"]) :=
  handler_valid_json_body_echo evArrBody ctxFix 5 "[1,2]"
    (Json.arr [Json.num "1", Json.num "2"]) rfl rfl

/-- C2 counterexample: an event whose body field is present (the empty
string) and is not valid JSON, yet the handler returns a response — and a
200 one — instead of raising: JS truthiness sends the empty string to the
no-body branch before `JSON.parse` can run. -/
theorem handler_empty_body_counterexample :
    jsonParse "" = none ∧ (handler evEmptyBody ctxFix 0).isSome = true ∧
      (handler evEmptyBody ctxFix 0).map (fun r => r.statusCode) = some 200 :=
  ⟨rfl, rfl, rfl⟩

/-- C2 (amended): for every event whose body field is present, non-empty
and not syntactically valid JSON, the parse failure propagates uncaught
and the handler produces no response object at all. -/
theorem handler_invalid_nonempty_body_faults (e : APIGatewayProxyEvent) (c : Context)
    (now : Nat) (B : String) (hB : e.body = some B) (hne : B ≠ "")
    (hbad : jsonParse B = none) : handler e c now = none := by
  unfold handler parseEventBody bodyTruthy
  rw [hB]
  have : B.isEmpty = false := by
    rcases Bool.eq_false_or_eq_true B.isEmpty with h | h
    · exact absurd ((String.isEmpty_iff B).mp h) hne
    · exact h
  simp [this, hbad]

/-- Witness for the amended C2 at the spec's `not-json` scenario body. -/
theorem handler_invalid_nonempty_body_faults_witness :
    handler evNotJson ctxFix 0 = none :=
  handler_invalid_nonempty_body_faults evNotJson ctxFix 0 "not-json" rfl
    (by decide) rfl

/-- C3 counterexample: an input with an invalid, non-empty body produces no
response object at all, refuting the claim that every input event yields a
status-200 response. -/
theorem handler_invalid_body_no_response :
    handler { evNoBody with body := some "x" } ctxFix 0 = none := rfl

/-- C3 (amended): whenever the handler does return a response — that is,
for every event whose body is absent, empty, or valid JSON — the numeric
status code of that response is 200; on present, non-empty, invalid bodies
no response is produced. -/
theorem handler_response_statusCode_200 (e : APIGatewayProxyEvent) (c : Context)
    (now : Nat) (r : APIGatewayProxyResult) (h : handler e c now = some r) :
    r.statusCode = 200 := by
  obtain ⟨v, hpb, hr⟩ := handler_some_inv e c now r h
  rw [hr]

/-- Witness for the amended C3 at the no-body event. -/
theorem handler_response_statusCode_200_witness :
    ({ statusCode := 200,
       headers := [("Content-Type", "application/json"),
                   ("Access-Control-Allow-Origin", "*")],
       body := jsonStringify (responseJson 9 ctxFix.awsRequestId (Json.obj [])) } :
      APIGatewayProxyResult).statusCode = 200 :=
  handler_response_statusCode_200 evNoBody ctxFix 9 _ rfl

/-- C4: for every invocation in which the handler returns a response, the
`requestId` field of the JSON-encoded response body is string-equal,
verbatim, to the `awsRequestId` value supplied in the invocation context. -/
theorem handler_requestId_matches_context (e : APIGatewayProxyEvent) (c : Context)
    (now : Nat) (r : APIGatewayProxyResult) (h : handler e c now = some r) :
    ∃ j, r.body = jsonStringify j ∧
      j.getField "requestId" = some (Json.str c.awsRequestId) := by
  obtain ⟨v, hpb, hr⟩ := handler_some_inv e c now r h
  rw [hr]
  exact ⟨responseJson now c.awsRequestId v, rfl,
    responseJson_getField_requestId now c.awsRequestId v⟩

/-- Witness for C4 at the no-body event and the fixed context. -/
theorem handler_requestId_matches_context_witness :
    ∃ j, ({ statusCode := 200,
            headers := [("Content-Type", "application/json"),
                        ("Access-Control-Allow-Origin", "*")],
            body := jsonStringify (responseJson 3 ctxFix.awsRequestId (Json.obj [])) } :
          APIGatewayProxyResult).body = jsonStringify j ∧
      j.getField "requestId" = some (Json.str ctxFix.awsRequestId) :=
  handler_requestId_matches_context evNoBody ctxFix 3 _ rfl

/-- C5: for every event whose body field is absent or the empty string, the
handler returns a response whose JSON-encoded body has a `body` field equal
to the empty JSON object. -/
theorem handler_absent_or_empty_body_empty_object (e : APIGatewayProxyEvent)
    (c : Context) (now : Nat) (h : e.body = none ∨ e.body = some "") :
    ∃ r, handler e c now = some r ∧
      ∃ j, r.body = jsonStringify j ∧ j.getField "body" = some (Json.obj []) := by
  have hpb : parseEventBody e.body = some (Json.obj []) := by
    cases h with
    | inl h => rw [h]; rfl
    | inr h => rw [h]; rfl
  exact ⟨_, handler_some_shape e c now _ hpb,
    responseJson now c.awsRequestId (Json.obj []), rfl,
    responseJson_getField_body now c.awsRequestId (Json.obj [])⟩

/-- Witness for C5 at the absent-body event. -/
theorem handler_absent_or_empty_body_empty_object_witness :
    ∃ r, handler evNoBody ctxFix 11 = some r ∧
      ∃ j, r.body = jsonStringify j ∧ j.getField "body" = some (Json.obj []) :=
  handler_absent_or_empty_body_empty_object evNoBody ctxFix 11 (Or.inl rfl)

/-- C6: for every invocation in which the handler returns a response, the
response's header mapping contains `Content-Type: application/json` and
`Access-Control-Allow-Origin: *`. -/
theorem handler_response_headers (e : APIGatewayProxyEvent) (c : Context)
    (now : Nat) (r : APIGatewayProxyResult) (h : handler e c now = some r) :
    ("Content-Type", "application/json") ∈ r.headers ∧
      ("Access-Control-Allow-Origin", "*") ∈ r.headers := by
  obtain ⟨v, hpb, hr⟩ := handler_some_inv e c now r h
  rw [hr]
  exact ⟨List.mem_cons_self _ _, List.mem_cons_of_mem _ (List.mem_cons_self _ _)⟩

/-- Witness for C6 at the no-body event. -/
theorem handler_response_headers_witness :
    ("Content-Type", "application/json") ∈
        ({ statusCode := 200,
           headers := [("Content-Type", "application/json"),
                       ("Access-Control-Allow-Origin", "*")],
           body := jsonStringify (responseJson 4 ctxFix.awsRequestId (Json.obj [])) } :
          APIGatewayProxyResult).headers ∧
      ("Access-Control-Allow-Origin", "*") ∈
        ({ statusCode := 200,
           headers := [("Content-Type", "application/json"),
                       ("Access-Control-Allow-Origin", "*")],
           body := jsonStringify (responseJson 4 ctxFix.awsRequestId (Json.obj [])) } :
          APIGatewayProxyResult).headers :=
  handler_response_headers evNoBody ctxFix 4 _ rfl

/-- C7: on the spec's scenario — body `\x7b"x":1\x7d`, request id
`abc-123` — the handler returns status 200 with message `Hello, World!`,
request id `abc-123`, and the parsed body object. -/
theorem handler_scenario_x1 :
    ∃ r, handler evX1 ctxAbc 1760140800000 = some r ∧ r.statusCode = 200 ∧
      ∃ j, r.body = jsonStringify j ∧
        j.getField "message" = some (Json.str "Hello, World!") ∧
        j.getField "requestId" = some (Json.str "abc-123") ∧
        j.getField "body" = some (Json.obj [("x", Json.num "1")]) :=
  ⟨_, handler_some_shape evX1 ctxAbc 1760140800000 (Json.obj [("x", Json.num "1")]) (by rfl),
    rfl, responseJson 1760140800000 "abc-123" (Json.obj [("x", Json.num "1")]),
    rfl, rfl, rfl, rfl⟩

/-- C8: whenever the handler returns a response, the `timestamp` field of
its JSON-encoded body is a syntactically valid ISO-8601 timestamp whose
instant is the single clock reading the handler takes, hence between the
invocation's start and completion times; the range hypothesis keeps the
clock inside the four-digit-year regime where the model of `toISOString`
is exact. -/
theorem handler_timestamp_valid_iso (e : APIGatewayProxyEvent) (c : Context)
    (now tStart tEnd : Nat) (r : APIGatewayProxyResult)
    (hS : tStart ≤ now) (hE : now ≤ tEnd) (hRange : now < 253402300800000)
    (h : handler e c now = some r) :
    ∃ j, r.body = jsonStringify j ∧
      ∃ ts, j.getField "timestamp" = some (Json.str ts) ∧
        isValidISO8601 ts = true ∧
        ∃ t, tStart ≤ t ∧ t ≤ tEnd ∧ ts = jsToISOString t := by
  obtain ⟨v, hpb, hr⟩ := handler_some_inv e c now r h
  rw [hr]
  exact ⟨responseJson now c.awsRequestId v, rfl, jsToISOString now,
    responseJson_getField_timestamp now c.awsRequestId v,
    jsToISOString_valid now, now, hS, hE, rfl⟩

/-- Witness for C8 at a clock reading inside a one-day invocation window. -/
theorem handler_timestamp_valid_iso_witness :
    ∃ j, ({ statusCode := 200,
            headers := [("Content-Type", "application/json"),
                        ("Access-Control-Allow-Origin", "*")],
            body := jsonStringify (responseJson 1760140800000 ctxFix.awsRequestId
              (Json.obj [])) } :
          APIGatewayProxyResult).body = jsonStringify j ∧
      ∃ ts, j.getField "timestamp" = some (Json.str ts) ∧
        isValidISO8601 ts = true ∧
        ∃ t, 1760097600000 ≤ t ∧ t ≤ 1760184000000 ∧ ts = jsToISOString t :=
  handler_timestamp_valid_iso evNoBody ctxFix 1760140800000 1760097600000
    1760184000000 _ (by decide) (by decide) (by decide) rfl

/-- C9: the handler is deterministic in its relevant inputs — two
invocations agreeing on the event's `body`, the context's `awsRequestId`
and the clock reading return identical responses, whatever the HTTP
method, path, headers, query parameters, or other context fields are. -/
theorem handler_noninterference (e1 e2 : APIGatewayProxyEvent) (c1 c2 : Context)
    (now : Nat) (hb : e1.body = e2.body) (hid : c1.awsRequestId = c2.awsRequestId) :
    handler e1 c1 now = handler e2 c2 now := by
  unfold handler
  rw [hb, hid]

/-- Witness for C9: two events differing in method, path, headers and query
parameters, and two contexts differing in function name, get the same
response. -/
theorem handler_noninterference_witness :
    handler evArrBody ctxFix 5 = handler evArrBodyAlt ctxFixAlt 5 :=
  handler_noninterference evArrBody evArrBodyAlt ctxFix ctxFixAlt 5 rfl rfl

/-- C10: the handler accepts any valid JSON value as body, not only
objects: a valid non-object body is echoed back as the `body` field, which
in particular is not the empty object (`null` stays `null`). -/
theorem handler_nonobject_body_echo (e : APIGatewayProxyEvent) (c : Context)
    (now : Nat) (B : String) (v : Json) (hB : e.body = some B)
    (hv : jsonParse B = some v) (hno : v.isObj = false) :
    ∃ r, handler e c now = some r ∧ r.statusCode = 200 ∧
      ∃ j, r.body = jsonStringify j ∧ j.getField "body" = some v ∧
        v ≠ Json.obj [] := by
  have hpb : parseEventBody e.body = some v := by
    rw [hB]; exact parseEventBody_some_of_parse B v hv
  refine ⟨_, handler_some_shape e c now v hpb, rfl,
    responseJson now c.awsRequestId v, rfl,
    responseJson_getField_body now c.awsRequestId v, ?_⟩
  intro hEq
  subst hEq
  cases hno

/-- Witness for C10 at the body `null`: the echoed `body` field is the JSON
value `null`, not the empty object. -/
theorem handler_nonobject_body_echo_witness :
    ∃ r, handler evNullBody ctxFix 7 = some r ∧ r.statusCode = 200 ∧
      ∃ j, r.body = jsonStringify j ∧ j.getField "body" = some Json.null ∧
        Json.null ≠ Json.obj [] :=
  handler_nonobject_body_echo evNullBody ctxFix 7 "null" Json.null rfl rfl rfl
